import Mathlib

/-!
Verification of the query-routing and result-rendering contract of the
ulauncher-gitlab extension (`main.py`).

The extension is shallowly embedded:
* the external GitLab API client is an oracle (`Remote`) whose fields return
  the full ordered result sequence matched by a query; the `page`/`per_page`
  arguments the code passes are applied by `paginate`, which models the
  external client's documented pagination contract (the code of `main.py`
  never paginates itself, it only forwards `page=1, per_page=10`);
* `pipelines.list` is called by the code without pagination arguments, so
  `Remote.pipelinesList` stands directly for the sequence that call returns;
* Python exceptions are values: `gitlab.GitlabError` raised by the client is
  `Except.error` in the operations, and the `AttributeError` raised by the
  missing `list_merge_requests` method is a distinct `Fault`;
* a `RenderResultListAction` is modelled as the list of items it renders;
* `re.findall(r"^cmd(.*)?$", query, re.IGNORECASE)` is modelled exactly for
  ASCII case folding: the pattern matches iff the query starts with the
  command word (case-insensitively) and the trailing text contains no
  newline, except that one final newline is permitted and then excluded from
  the captured remainder (`$` matches before a final newline, `.` never
  matches a newline, and `^` only matches at the start without MULTILINE).
-/

namespace UGitlab

/-- A `gitlab.GitlabError` raised by the API client; `message` is `str(exc)`. -/
structure GitlabError where
  message : String
deriving Repr, DecidableEq

/-- The identity resolved by `gitlab.auth()` (stored in `self.current_user`). -/
structure User where
  username : String
deriving Repr, DecidableEq

/-- A project object returned by `gitlab.projects.list`; only the attributes
read by `main.py` are modelled. -/
structure Project where
  name : String
  description : Option String
  web_url : String
deriving Repr, DecidableEq

/-- A group object returned by `gitlab.groups.list`. -/
structure Group where
  name : String
  description : Option String
  web_url : String
deriving Repr, DecidableEq

/-- A pipeline object returned by `project.pipelines.list`. -/
structure Pipeline where
  name : Option String
  source : String
  ref : String
  web_url : String
deriving Repr, DecidableEq

/-- The `gitlab.Gitlab(url, private_token=...)` client handle. -/
structure Client where
  url : String
  private_token : String
deriving Repr, DecidableEq

/-- The host-supplied preferences read by the extension. -/
structure Preferences where
  kw : String
  url : String
  access_token : String
deriving Repr, DecidableEq

/-- The mutable fields of `GitLabExtension`: the client handle (`self.gitlab`,
`None` before `PreferencesEvent`) and the cached identity (`self.current_user`). -/
structure ExtState where
  preferences : Preferences
  gitlab : Option Client
  current_user : Option User
deriving Repr, DecidableEq

/-- The host actions a result item can be bound to.  `customAction` is
`ExtensionCustomAction(project, keep_app_open=True)`, carrying the selected
project to the `ItemEnterEvent` listener. -/
inductive Action where
  | openUrl (url : String)
  | copyToClipboard (text : String)
  | setUserQuery (text : String)
  | hideWindow
  | customAction (payload : Project) (keep_app_open : Bool)
deriving Repr, DecidableEq

/-- An `ExtensionResultItem`: the fields `main.py` sets (an omitted
`description` defaults to `""`, an omitted `on_alt_enter` to `none`). -/
structure ResultItem where
  icon : String
  name : String
  description : String
  highlightable : Bool
  on_enter : Action
  on_alt_enter : Option Action
deriving Repr, DecidableEq

/-- The external GitLab API, an oracle.  Each list field returns the full
ordered result sequence for the given filters (or raises a `GitlabError`);
the caller applies the `page`/`per_page` arguments via `paginate`.
`pipelinesList` is the result of the unpaginated `project.pipelines.list`
call itself. -/
structure Remote where
  auth : Except GitlabError User
  projectsList : (search : String) → (membership : Bool) → (starred : Bool) →
    (visibility : Option String) → (order_by : String) → (sort : String) →
    Except GitlabError (List Project)
  groupsList : (archived : Bool) → (search : String) → (order_by : String) →
    (sort : String) → Except GitlabError (List Group)
  pipelinesList : (project : Project) → (order_by : String) → (status : String) →
    Except GitlabError (List Pipeline)

/-- The external client's pagination contract: page `page` (1-based) of size
`per_page` of the full result sequence. -/
def paginate (page per_page : Nat) (l : List α) : List α :=
  (l.drop ((page - 1) * per_page)).take per_page

/-- ASCII lowering of a character list (`Char.toLower` lowers exactly
`A`–`Z`; the command words are ASCII, matching `re.IGNORECASE` there). -/
def lowerList (l : List Char) : List Char :=
  l.map Char.toLower

/-- `startsList p q` : `q` starts with `p`. -/
def startsList : List Char → List Char → Bool
  | [], _ => true
  | _ :: _, [] => false
  | a :: p, b :: q => a == b && startsList p q

/-- `containsList n h` : `n` occurs contiguously in `h` (Python `n in h`). -/
def containsList (needle : List Char) : List Char → Bool
  | [] => needle.isEmpty
  | c :: rest => startsList needle (c :: rest) || containsList needle rest

/-- What `(.*)?$` captures from the text after the command word: without
`re.DOTALL`, `.` never matches `'\n'`, and `$` matches at the end of the
string or just before a final `'\n'`.  So the capture is the whole trailing
text when it has no newline, the trailing text minus a single final newline,
and the pattern fails to match otherwise. -/
def tailCapture (rest : List Char) : Option (List Char) :=
  if '\n' ∈ rest then
    if rest.getLast? = some '\n' ∧ '\n' ∉ rest.dropLast then some rest.dropLast
    else none
  else some rest

/-- `re.findall(r"^cmd(.*)?$", query, re.IGNORECASE)` reduced to the single
anchored match it can produce: `some remainder` when the pattern matches,
`none` when the list of matches is empty (falsy). -/
def reFindall (cmd : String) (query : String) : Option String :=
  if startsList (lowerList cmd.toList) (lowerList query.toList) then
    match tailCapture (query.toList.drop cmd.toList.length) with
    | some cs => some (String.mk cs)
    | none => none
  else none

/-- The command the router dispatches to. -/
inductive Command where
  | showMenu
  | overview (rem : String)
  | projects (rem : String)
  | pipelines (rem : String)
  | mr (rem : String)
  | groups (rem : String)
  | defaultSearch (query : String)
deriving Repr, DecidableEq

/-- The routing of `KeywordQueryEventListener.on_event`: empty query shows
the menu; otherwise the five `re.findall` results are tested for truthiness
in the order `overview`, `repos` (projects), `pipelines`, `merge_requests`
(mr), `groups`; the fallback passes the whole query to the member search. -/
def commandOf (query : String) : Command :=
  if query = "" then Command.showMenu
  else
    match reFindall "overview" query with
    | some rem => Command.overview rem
    | none =>
      match reFindall "projects" query with
      | some rem => Command.projects rem
      | none =>
        match reFindall "pipelines" query with
        | some rem => Command.pipelines rem
        | none =>
          match reFindall "mr" query with
          | some rem => Command.mr rem
          | none =>
            match reFindall "groups" query with
            | some rem => Command.groups rem
            | none => Command.defaultSearch query

/-- Modelled from the spec wording of the routing contract (for comparison
with `commandOf`): a plain case-insensitive prefix test, capturing the
verbatim trailing text as remainder. -/
def specMatch (cmd : String) (query : String) : Option String :=
  if startsList (lowerList cmd.toList) (lowerList query.toList) then
    some (String.mk (query.toList.drop cmd.toList.length))
  else none

/-- Modelled from the spec wording: first match wins over the prefixes
`overview`, `projects`, `pipelines`, `mr`, `groups`; otherwise the whole
query is the default member-project search term. -/
def specCommandOf (query : String) : Command :=
  if query = "" then Command.showMenu
  else
    match specMatch "overview" query with
    | some rem => Command.overview rem
    | none =>
      match specMatch "projects" query with
      | some rem => Command.projects rem
      | none =>
        match specMatch "pipelines" query with
        | some rem => Command.pipelines rem
        | none =>
          match specMatch "mr" query with
          | some rem => Command.mr rem
          | none =>
            match specMatch "groups" query with
            | some rem => Command.groups rem
            | none => Command.defaultSearch query

/-- Discriminator used to state scoping hypotheses. -/
def Command.isMr : Command → Bool
  | Command.mr _ => true
  | _ => false

/-- Discriminator used to state scoping hypotheses. -/
def Command.isOverview : Command → Bool
  | Command.overview _ => true
  | _ => false

example : commandOf "" = Command.showMenu := by decide
example : commandOf "GROUPS test" = Command.groups " test" := by decide
example : commandOf "mr" = Command.mr "" := by decide
example : commandOf "mr\nx" = Command.defaultSearch "mr\nx" := by decide
example : specCommandOf "mr\nx" = Command.mr "\nx" := by decide
example : commandOf "overview groups" = Command.overview " groups" := by decide
example : commandOf "somequery" = Command.defaultSearch "somequery" := by decide
example : commandOf "mr x\n" = Command.mr " x" := by decide

def PROJECTS_SEARCH_TYPE_PUBLIC : String := "PUBLIC"

def PROJECTS_SEARCH_TYPE_MEMBER : String := "MEMBER"

def PROJECTS_SEARCH_TYPE_STARRED : String := "STARRED"

/-- `GitLabExtension.show_menu`: the fixed top-level menu rendered for an
empty query. -/
def GitLabExtension.show_menu (st : ExtState) : List ResultItem :=
  [{ icon := "images/icon.png", name := "Overview", description := "",
     highlightable := false,
     on_enter := Action.setUserQuery (st.preferences.kw ++ " overview"),
     on_alt_enter := none },
   { icon := "images/icon.png", name := "Pipelines",
     description := "List running pipelines", highlightable := false,
     on_enter := Action.setUserQuery (st.preferences.kw ++ " pipelines "),
     on_alt_enter := none },
   { icon := "images/icon.png", name := "Merge Requests",
     description := "List opened merge request", highlightable := false,
     on_enter := Action.setUserQuery (st.preferences.kw ++ " mr"),
     on_alt_enter := none }]

/-- `GitLabExtension.show_overview_menu`: authenticates lazily when
`self.current_user is None` (a failure there raises out of this method),
builds the fixed three-item menu, and for a truthy (non-empty) `query`
keeps the items whose name contains it case-insensitively. -/
def GitLabExtension.show_overview_menu (r : Remote) (st : ExtState)
    (query : String) : Except GitlabError (List ResultItem) :=
  match (match st.current_user with
         | none => r.auth
         | some u => Except.ok u) with
  | Except.error e => Except.error e
  | Except.ok _user =>
  let items : List ResultItem :=
    [{ icon := "images/icon.png", name := "Gitlab",
       description := "Open gitlab", highlightable := false,
       on_enter := Action.openUrl st.preferences.url, on_alt_enter := none },
     { icon := "images/icon.png", name := "My Groups",
       description := "List the groups you belong", highlightable := false,
       on_enter := Action.setUserQuery (st.preferences.kw ++ " groups "),
       on_alt_enter :=
         some (Action.copyToClipboard (st.preferences.url ++ "/dashboard/groups")) },
     { icon := "images/icon.png", name := "My Access Tokens",
       description := "Open \"Access Tokens\" page", highlightable := false,
       on_enter :=
         Action.openUrl (st.preferences.url ++ "/-/user_settings/personal_access_tokens"),
       on_alt_enter := none }]
  Except.ok
    (if query ≠ "" then
      items.filter fun p => containsList (lowerList query.toList) (lowerList p.name.toList)
    else items)

/-- The placeholder rendered when a project search returns nothing. -/
def noProjectsItem : ResultItem :=
  { icon := "images/icon.png",
    name := "No projects found matching your search criteria",
    description := "", highlightable := false,
    on_enter := Action.hideWindow, on_alt_enter := none }

/-- The item built for each project by `search_projects_for_pipeline`: its
primary action is the drill-down (`ExtensionCustomAction(project,
keep_app_open=True)`). -/
def pipelineProjectItem (project : Project) : ResultItem :=
  { icon := "images/icon.png", name := project.name,
    description := project.description.getD "", highlightable := false,
    on_enter := Action.customAction project true, on_alt_enter := none }

/-- `GitLabExtension.search_projects_for_pipeline`: member-scoped project
search (`membership=1, order_by="name", sort="asc", page=1, per_page=10`),
rendered with the drill-down action. -/
def GitLabExtension.search_projects_for_pipeline (r : Remote) (query : String) :
    Except GitlabError (List ResultItem) := do
  let projects ← (r.projectsList query true false none "name" "asc").map (paginate 1 10)
  if projects.isEmpty then
    Except.ok [noProjectsItem]
  else
    Except.ok (projects.map pipelineProjectItem)

/-- The item built for each project by `search_projects`. -/
def projectSearchItem (project : Project) : ResultItem :=
  { icon := "images/icon.png", name := project.name,
    description := project.description.getD "", highlightable := false,
    on_enter := Action.openUrl project.web_url,
    on_alt_enter := some (Action.copyToClipboard project.web_url) }

/-- `GitLabExtension.search_projects`: the three search variants (member,
starred, anything else = public), each `page=1, per_page=10`. -/
def GitLabExtension.search_projects (r : Remote) (query : String)
    (search_type : String) : Except GitlabError (List ResultItem) := do
  let projects ←
    if search_type = PROJECTS_SEARCH_TYPE_MEMBER then
      (r.projectsList query true false none "name" "asc").map (paginate 1 10)
    else if search_type = PROJECTS_SEARCH_TYPE_STARRED then
      (r.projectsList query false true none "last_activity_at" "desc").map (paginate 1 10)
    else
      (r.projectsList query false false (some "public") "last_activity_at" "desc").map
        (paginate 1 10)
  if projects.isEmpty then
    Except.ok [noProjectsItem]
  else
    Except.ok (projects.map projectSearchItem)

/-- The placeholder rendered when the group search returns nothing. -/
def noGroupsItem : ResultItem :=
  { icon := "images/icon.png",
    name := "No groups found matching your search criteria",
    description := "", highlightable := false,
    on_enter := Action.hideWindow, on_alt_enter := none }

/-- The item built for each group by `list_groups`. -/
def groupResultItem (group : Group) : ResultItem :=
  { icon := "images/icon.png", name := group.name,
    description := group.description.getD "", highlightable := false,
    on_enter := Action.openUrl group.web_url,
    on_alt_enter := some (Action.copyToClipboard group.web_url) }

/-- `GitLabExtension.list_groups`: group search (`archived=0,
order_by="name", sort="asc", page=1, per_page=10`). -/
def GitLabExtension.list_groups (r : Remote) (query : String) :
    Except GitlabError (List ResultItem) := do
  let groups ← (r.groupsList false query "name" "asc").map (paginate 1 10)
  if groups.isEmpty then
    Except.ok [noGroupsItem]
  else
    Except.ok (groups.map groupResultItem)

/-- The placeholder rendered by the pipeline drill-down when the project has
no running pipelines. -/
def noPipelinesItem : ResultItem :=
  { icon := "images/icon.png", name := "No pipelines found",
    description := "", highlightable := false,
    on_enter := Action.hideWindow, on_alt_enter := none }

/-- The item built for each running pipeline by the drill-down. -/
def pipelineResultItem (pipeline : Pipeline) : ResultItem :=
  { icon := "images/icon.png",
    name := pipeline.source ++ "/" ++ pipeline.ref,
    description := pipeline.name.getD "", highlightable := false,
    on_enter := Action.openUrl pipeline.web_url,
    on_alt_enter := some (Action.copyToClipboard pipeline.web_url) }

/-- `ItemEnterEventListener.on_event`: the pipeline drill-down.  `data` is
the project carried by the custom action; the listener fetches
`data.pipelines.list(order_by="updated_at", status="running")` (no
try/except here: a `GitlabError` propagates out of this listener). -/
def ItemEnterEventListener.on_event (r : Remote) (data : Project) :
    Except GitlabError (List ResultItem) := do
  let pipelines ← r.pipelinesList data "updated_at" "running"
  if pipelines.isEmpty then
    Except.ok [noPipelinesItem]
  else
    Except.ok (pipelines.map pipelineResultItem)

/-- A Python exception escaping or caught inside the router. -/
inductive Fault where
  | gitlabError (e : GitlabError)
  | attributeError (message : String)
deriving Repr, DecidableEq

/-- The body of the `try:` block of `KeywordQueryEventListener.on_event`
(plus the empty-query early return, which precedes the `try`): dispatch on
the parsed command.  The `mr` branch looks up the attribute
`list_merge_requests`, which `GitLabExtension` does not define, so it raises
an `AttributeError` before any API call. -/
def tryRoute (r : Remote) (st : ExtState) (query : String) :
    Except Fault (List ResultItem) :=
  match commandOf query with
  | Command.showMenu => Except.ok (GitLabExtension.show_menu st)
  | Command.overview rem =>
      (GitLabExtension.show_overview_menu r st rem).mapError Fault.gitlabError
  | Command.projects rem =>
      (GitLabExtension.search_projects r rem PROJECTS_SEARCH_TYPE_MEMBER).mapError
        Fault.gitlabError
  | Command.pipelines rem =>
      (GitLabExtension.search_projects_for_pipeline r rem).mapError Fault.gitlabError
  | Command.mr _rem =>
      Except.error
        (Fault.attributeError "GitLabExtension object has no attribute list_merge_requests")
  | Command.groups rem =>
      (GitLabExtension.list_groups r rem).mapError Fault.gitlabError
  | Command.defaultSearch q =>
      (GitLabExtension.search_projects r q PROJECTS_SEARCH_TYPE_MEMBER).mapError
        Fault.gitlabError

/-- The error placeholder built by the router's `except gitlab.GitlabError`
clause. -/
def gitlabErrorItem (e : GitlabError) : ResultItem :=
  { icon := "images/icon.png",
    name := "An error ocurred when connecting to GitLab",
    description := e.message, highlightable := false,
    on_enter := Action.hideWindow, on_alt_enter := none }

/-- `KeywordQueryEventListener.on_event`: the routed dispatch wrapped in
`try: ... except gitlab.GitlabError as exc:`; only `GitlabError` is caught,
every other fault escapes the listener. -/
def KeywordQueryEventListener.on_event (r : Remote) (st : ExtState)
    (query : String) : Except Fault (List ResultItem) :=
  match tryRoute r st query with
  | Except.error (Fault.gitlabError e) => Except.ok [gitlabErrorItem e]
  | other => other

/-- `PreferencesEventListener.on_event`: builds the client from the event's
preferences, then tries `auth()`; any exception is caught and leaves
`current_user = None`.  The `auth` oracle maps a client to the resolved user,
or `none` when `auth()` raises. -/
def PreferencesEventListener.on_event (auth : Client → Option User)
    (prefs : Preferences) (st : ExtState) : ExtState :=
  let client : Client := { url := prefs.url, private_token := prefs.access_token }
  { st with gitlab := some client, current_user := auth client }

/-- `PreferencesUpdateEventListener.on_event`: a `url` change assigns
`extension.gitlab.url = event.new_value` in place (no new client, no
`auth()`); an `access_token` change rebuilds the client from the stored
`url` preference and re-authenticates, degrading to `current_user = None`
on any exception.  The `id = "url"` branch requires an existing client
(`extension.gitlab` is only `None` before `PreferencesEvent` has run, and
preference updates are delivered after it). -/
def PreferencesUpdateEventListener.on_event (auth : Client → Option User)
    (id new_value : String) (st : ExtState) : ExtState :=
  if id = "url" then
    match st.gitlab with
    | some c => { st with gitlab := some { c with url := new_value } }
    | none => st
  else if id = "access_token" then
    let client : Client := { url := st.preferences.url, private_token := new_value }
    { st with gitlab := some client, current_user := auth client }
  else st

/-! ### Concrete fixtures used by witnesses -/

/-- A concrete extension state with no cached user. -/
def st0 : ExtState :=
  { preferences := { kw := "gl", url := "https://example.com", access_token := "tok" },
    gitlab := some { url := "https://example.com", private_token := "tok" },
    current_user := none }

/-- A concrete extension state with a cached user. -/
def stU : ExtState :=
  { preferences := { kw := "gl", url := "https://example.com", access_token := "tok" },
    gitlab := some { url := "https://example.com", private_token := "tok" },
    current_user := some { username := "alice" } }

/-- A remote on which every lookup succeeds with zero results. -/
def remote0 : Remote :=
  { auth := Except.ok { username := "alice" },
    projectsList := fun _ _ _ _ _ _ => Except.ok [],
    groupsList := fun _ _ _ _ => Except.ok [],
    pipelinesList := fun _ _ _ => Except.ok [] }

/-- A concrete project. -/
def proj1 : Project :=
  { name := "proj", description := none, web_url := "https://example.com/p" }

/-- A concrete group. -/
def grp1 : Group :=
  { name := "grp", description := some "d", web_url := "https://example.com/g" }

/-- A concrete running pipeline. -/
def pipe1 : Pipeline :=
  { name := some "nightly", source := "push", ref := "main",
    web_url := "https://example.com/pl" }

/-- A remote on which every lookup succeeds with one result. -/
def remote1 : Remote :=
  { auth := Except.ok { username := "alice" },
    projectsList := fun _ _ _ _ _ _ => Except.ok [proj1],
    groupsList := fun _ _ _ _ => Except.ok [grp1],
    pipelinesList := fun _ _ _ => Except.ok [pipe1] }

/-- A remote on which every call raises the given `GitlabError`. -/
def failingRemote (e : GitlabError) : Remote :=
  { auth := Except.error e,
    projectsList := fun _ _ _ _ _ _ => Except.error e,
    groupsList := fun _ _ _ _ => Except.error e,
    pipelinesList := fun _ _ _ => Except.error e }

/-! ### Helper lemmas -/

/-- On a query without newlines, the anchored-regex capture is exactly the
case-insensitive prefix test with the verbatim trailing text. -/
theorem reFindall_eq_specMatch (cmd q : String) (h : '\n' ∉ q.toList) :
    reFindall cmd q = specMatch cmd q := by
  unfold reFindall specMatch
  by_cases hc : startsList (lowerList cmd.toList) (lowerList q.toList) = true
  · have hrest : '\n' ∉ q.toList.drop cmd.toList.length :=
      fun hm => h (List.drop_subset _ _ hm)
    simp only [hc, if_true]
    unfold tailCapture
    rw [if_neg hrest]
  · simp only [Bool.not_eq_true] at hc
    simp only [hc, Bool.false_eq_true, if_false]

/-! ### Claims -/

/-- C4: for the empty query the router unconditionally returns the fixed
top-level menu of exactly three items titled Overview, Pipelines and
Merge Requests; the result does not depend on the remote, so no remote
lookup is performed. -/
theorem empty_query_shows_fixed_menu (r : Remote) (st : ExtState) :
    KeywordQueryEventListener.on_event r st "" =
      Except.ok
        [{ icon := "images/icon.png", name := "Overview", description := "",
           highlightable := false,
           on_enter := Action.setUserQuery (st.preferences.kw ++ " overview"),
           on_alt_enter := none },
         { icon := "images/icon.png", name := "Pipelines",
           description := "List running pipelines", highlightable := false,
           on_enter := Action.setUserQuery (st.preferences.kw ++ " pipelines "),
           on_alt_enter := none },
         { icon := "images/icon.png", name := "Merge Requests",
           description := "List opened merge request", highlightable := false,
           on_enter := Action.setUserQuery (st.preferences.kw ++ " mr"),
           on_alt_enter := none }] :=
  rfl

/-- C1: invoking the `mr` command does not produce an "unsupported" result
item; it raises an `AttributeError` (the extension defines no
`list_merge_requests` method) that the router's `except gitlab.GitlabError`
clause does not catch, so the fault escapes the router for every remote and
every extension state. -/
theorem mr_query_raises_unhandled_attribute_fault (r : Remote) (st : ExtState) :
    KeywordQueryEventListener.on_event r st "mr" =
      Except.error
        (Fault.attributeError
          "GitLabExtension object has no attribute list_merge_requests") :=
  rfl

/-- C3 counterexample: on the query `"mr\nx"` the claimed routing (plain
case-insensitive prefix match with verbatim remainder) selects the `mr`
command with remainder `"\nx"`, but the code's anchored regex fails on the
interior newline and the router falls through to the default member-project
search over the whole query. -/
theorem routing_claim_fails_on_newline_query :
    specCommandOf "mr\nx" = Command.mr "\nx" ∧
      commandOf "mr\nx" = Command.defaultSearch "mr\nx" := by
  constructor
  · decide
  · decide

/-- C3 (amended to queries without a newline character): the router matches
the query case-insensitively against the fixed prefixes in priority order
`overview`, `projects`, `pipelines`, `mr`, `groups`, first match wins, with
the verbatim trailing text (including leading whitespace) as remainder, and
falls back to using the entire query as the member-scoped project search
term. -/
theorem routing_follows_spec_prefix_order (q : String) (_h1 : q ≠ "")
    (h2 : '\n' ∉ q.toList) : commandOf q = specCommandOf q := by
  unfold commandOf specCommandOf
  rw [reFindall_eq_specMatch "overview" q h2, reFindall_eq_specMatch "projects" q h2,
    reFindall_eq_specMatch "pipelines" q h2, reFindall_eq_specMatch "mr" q h2,
    reFindall_eq_specMatch "groups" q h2]

/-- C3 witness: the amended routing claim applied at the spec's example
query `"GROUPS test"`. -/
theorem routing_follows_spec_prefix_order_witness :
    commandOf "GROUPS test" = specCommandOf "GROUPS test" :=
  routing_follows_spec_prefix_order "GROUPS test" (by decide) (by decide)

/-- C6: when the remote search behind a command returns zero results, the
output is exactly one placeholder item whose only bound action hides the
result window (primary action `HideWindowAction`, no alt-enter action). -/
theorem zero_results_single_dismiss_item (r : Remote) (q : String)
    (hm : r.projectsList q true false none "name" "asc" = Except.ok [])
    (hg : r.groupsList false q "name" "asc" = Except.ok []) :
    GitLabExtension.search_projects r q PROJECTS_SEARCH_TYPE_MEMBER =
        Except.ok [noProjectsItem]
    ∧ GitLabExtension.search_projects_for_pipeline r q = Except.ok [noProjectsItem]
    ∧ GitLabExtension.list_groups r q = Except.ok [noGroupsItem]
    ∧ noProjectsItem.on_enter = Action.hideWindow
    ∧ noProjectsItem.on_alt_enter = none
    ∧ noGroupsItem.on_enter = Action.hideWindow
    ∧ noGroupsItem.on_alt_enter = none := by
  refine ⟨?_, ?_, ?_, rfl, rfl, rfl, rfl⟩
  · unfold GitLabExtension.search_projects
    rw [if_pos rfl, hm]
    rfl
  · unfold GitLabExtension.search_projects_for_pipeline
    rw [hm]
    rfl
  · unfold GitLabExtension.list_groups
    rw [hg]
    rfl

/-- C6 witness: the zero-results claim applied at a concrete remote with
empty result sets. -/
theorem zero_results_single_dismiss_item_witness :
    GitLabExtension.search_projects remote0 "x" PROJECTS_SEARCH_TYPE_MEMBER =
        Except.ok [noProjectsItem]
    ∧ GitLabExtension.list_groups remote0 "x" = Except.ok [noGroupsItem] :=
  ⟨(zero_results_single_dismiss_item remote0 "x" rfl rfl).1,
   (zero_results_single_dismiss_item remote0 "x" rfl rfl).2.2.1⟩

/-- C7: a successful, non-empty member project search or group search
renders the first page of at most 10 results, in the remote's order (the
output is the image of `take 10` of the remote sequence under the item
builder), and each item's description is the source description, or `""`
when it is null. -/
theorem search_results_order_and_bound (r : Remote) (q : String)
    (l : List Project) (g : List Group) (hl : l ≠ []) (hg : g ≠ [])
    (hpl : r.projectsList q true false none "name" "asc" = Except.ok l)
    (hgl : r.groupsList false q "name" "asc" = Except.ok g) :
    GitLabExtension.search_projects r q PROJECTS_SEARCH_TYPE_MEMBER =
        Except.ok ((l.take 10).map projectSearchItem)
    ∧ ((l.take 10).map projectSearchItem).length ≤ 10
    ∧ (∀ p : Project, (projectSearchItem p).name = p.name ∧
        (projectSearchItem p).description = p.description.getD "")
    ∧ GitLabExtension.list_groups r q = Except.ok ((g.take 10).map groupResultItem)
    ∧ ((g.take 10).map groupResultItem).length ≤ 10
    ∧ (∀ gr : Group, (groupResultItem gr).name = gr.name ∧
        (groupResultItem gr).description = gr.description.getD "") := by
  have hlt : l.take 10 ≠ [] := by
    cases l with
    | nil => exact absurd rfl hl
    | cons a l' => simp [List.take]
  have hgt : g.take 10 ≠ [] := by
    cases g with
    | nil => exact absurd rfl hg
    | cons a g' => simp [List.take]
  refine ⟨?_, ?_, fun p => ⟨rfl, rfl⟩, ?_, ?_, fun gr => ⟨rfl, rfl⟩⟩
  · unfold GitLabExtension.search_projects
    rw [if_pos rfl, hpl]
    show (if (paginate 1 10 l).isEmpty then Except.ok [noProjectsItem]
          else Except.ok ((paginate 1 10 l).map projectSearchItem)) = _
    have hpag : paginate 1 10 l = l.take 10 := by simp [paginate]
    rw [hpag, if_neg (by simp [List.isEmpty_iff, hlt])]
  · simp [List.length_take]
  · unfold GitLabExtension.list_groups
    rw [hgl]
    show (if (paginate 1 10 g).isEmpty then Except.ok [noGroupsItem]
          else Except.ok ((paginate 1 10 g).map groupResultItem)) = _
    have hpag : paginate 1 10 g = g.take 10 := by simp [paginate]
    rw [hpag, if_neg (by simp [List.isEmpty_iff, hgt])]
  · simp [List.length_take]

/-- C7 witness: the order/bound claim applied at a concrete remote with one
project and one group. -/
theorem search_results_order_and_bound_witness :
    GitLabExtension.search_projects remote1 "x" PROJECTS_SEARCH_TYPE_MEMBER =
        Except.ok [projectSearchItem proj1]
    ∧ GitLabExtension.list_groups remote1 "x" = Except.ok [groupResultItem grp1] :=
  ⟨(search_results_order_and_bound remote1 "x" [proj1] [grp1] (by decide) (by decide)
      rfl rfl).1,
   (search_results_order_and_bound remote1 "x" [proj1] [grp1] (by decide) (by decide)
      rfl rfl).2.2.2.1⟩

/-- C8: the pipeline drill-down fetches the selected project's pipelines
with `order_by="updated_at"` and `status="running"`; zero running pipelines
render exactly one dismissable "No pipelines found" item, and N running
pipelines render exactly N items titled `source/ref`.  The drill-down is
reached from the pipelines command: each project item there carries the
project as a keep-app-open custom action. -/
theorem pipeline_drilldown_spec (r : Remote) (data : Project) :
    (r.pipelinesList data "updated_at" "running" = Except.ok [] →
      ItemEnterEventListener.on_event r data = Except.ok [noPipelinesItem])
    ∧ (∀ pls : List Pipeline, pls ≠ [] →
        r.pipelinesList data "updated_at" "running" = Except.ok pls →
        ItemEnterEventListener.on_event r data = Except.ok (pls.map pipelineResultItem)
        ∧ (pls.map pipelineResultItem).length = pls.length
        ∧ ∀ pl : Pipeline, (pipelineResultItem pl).name = pl.source ++ "/" ++ pl.ref)
    ∧ (∀ qq : String, ∀ l : List Project, l ≠ [] →
        r.projectsList qq true false none "name" "asc" = Except.ok l →
        GitLabExtension.search_projects_for_pipeline r qq =
          Except.ok ((l.take 10).map pipelineProjectItem)
        ∧ ∀ p : Project, (pipelineProjectItem p).on_enter = Action.customAction p true)
    ∧ noPipelinesItem.on_enter = Action.hideWindow
    ∧ noPipelinesItem.on_alt_enter = none := by
  refine ⟨?_, ?_, ?_, rfl, rfl⟩
  · intro h
    unfold ItemEnterEventListener.on_event
    rw [h]
    rfl
  · intro pls hne h
    refine ⟨?_, by simp, fun pl => rfl⟩
    unfold ItemEnterEventListener.on_event
    rw [h]
    show (if pls.isEmpty then Except.ok [noPipelinesItem]
          else Except.ok (pls.map pipelineResultItem)) = _
    rw [if_neg (by simp [List.isEmpty_iff, hne])]
  · intro qq l hne h
    refine ⟨?_, fun p => rfl⟩
    have hlt : l.take 10 ≠ [] := by
      cases l with
      | nil => exact absurd rfl hne
      | cons a l' => simp [List.take]
    unfold GitLabExtension.search_projects_for_pipeline
    rw [h]
    show (if (paginate 1 10 l).isEmpty then Except.ok [noProjectsItem]
          else Except.ok ((paginate 1 10 l).map pipelineProjectItem)) = _
    have hpag : paginate 1 10 l = l.take 10 := by simp [paginate]
    rw [hpag, if_neg (by simp [List.isEmpty_iff, hlt])]

/-- C8 witness: the drill-down claim applied at a concrete remote with one
running pipeline, and at one with none. -/
theorem pipeline_drilldown_spec_witness :
    ItemEnterEventListener.on_event remote1 proj1 =
        Except.ok [pipelineResultItem pipe1]
    ∧ ItemEnterEventListener.on_event remote0 proj1 = Except.ok [noPipelinesItem] :=
  ⟨((pipeline_drilldown_spec remote1 proj1).2.1 [pipe1] (by decide) rfl).1,
   (pipeline_drilldown_spec remote0 proj1).1 rfl⟩

/-- C9: an `access_token` preference change rebuilds the client (stored
`url` preference, new token) and re-resolves the identity, degrading to
`current_user = none` when authentication fails, without crashing; a `url`
preference change only assigns the existing client's url field in place —
the cached user is untouched and no authentication happens (the result does
not depend on the auth oracle).  The startup listener likewise replaces the
client and the cached user. -/
theorem preference_change_session_behavior (auth : Client → Option User)
    (st : ExtState) (c : Client) (hc : st.gitlab = some c) (v : String) :
    ((PreferencesUpdateEventListener.on_event auth "url" v st).gitlab =
        some { c with url := v }
     ∧ (PreferencesUpdateEventListener.on_event auth "url" v st).current_user =
        st.current_user
     ∧ ∀ auth2 : Client → Option User,
        PreferencesUpdateEventListener.on_event auth2 "url" v st =
          PreferencesUpdateEventListener.on_event auth "url" v st)
    ∧ ((PreferencesUpdateEventListener.on_event auth "access_token" v st).gitlab =
        some { url := st.preferences.url, private_token := v }
      ∧ (PreferencesUpdateEventListener.on_event auth "access_token" v st).current_user =
          auth { url := st.preferences.url, private_token := v }
      ∧ (auth { url := st.preferences.url, private_token := v } = none →
          (PreferencesUpdateEventListener.on_event auth "access_token" v st).current_user =
            none))
    ∧ (∀ prefs : Preferences,
        (PreferencesEventListener.on_event auth prefs st).gitlab =
          some { url := prefs.url, private_token := prefs.access_token }
        ∧ (PreferencesEventListener.on_event auth prefs st).current_user =
            auth { url := prefs.url, private_token := prefs.access_token }) := by
  have hurl : ∀ auth2 : Client → Option User,
      PreferencesUpdateEventListener.on_event auth2 "url" v st =
        { st with gitlab := some { c with url := v } } := by
    intro auth2
    unfold PreferencesUpdateEventListener.on_event
    rw [if_pos rfl, hc]
  have htok : PreferencesUpdateEventListener.on_event auth "access_token" v st =
      { st with gitlab := some { url := st.preferences.url, private_token := v },
                current_user := auth { url := st.preferences.url, private_token := v } } := by
    unfold PreferencesUpdateEventListener.on_event
    rw [if_neg (by decide), if_pos rfl]
  refine ⟨⟨?_, ?_, ?_⟩, ⟨?_, ?_, ?_⟩, ?_⟩
  · rw [hurl auth]
  · rw [hurl auth]
  · intro auth2
    rw [hurl auth2, hurl auth]
  · rw [htok]
  · rw [htok]
  · intro hnone
    rw [htok]
    exact hnone
  · intro prefs
    exact ⟨rfl, rfl⟩

/-- C9 witness: the preference-change claim applied at a concrete state and
an auth oracle that always fails. -/
theorem preference_change_session_behavior_witness :
    (PreferencesUpdateEventListener.on_event (fun _ => none) "url" "https://new.example.com"
        st0).current_user = st0.current_user
    ∧ (PreferencesUpdateEventListener.on_event (fun _ => none) "access_token" "tok2"
        st0).current_user = none :=
  ⟨(preference_change_session_behavior (fun _ => none) st0
      { url := "https://example.com", private_token := "tok" } rfl
      "https://new.example.com").1.2.1,
   ((preference_change_session_behavior (fun _ => none) st0
      { url := "https://example.com", private_token := "tok" } rfl "tok2").2.1.2.2 rfl)⟩

/-- A non-empty query never routes to the bare menu. -/
theorem commandOf_ne_showMenu (q : String) (hq : q ≠ "") :
    commandOf q ≠ Command.showMenu := by
  intro h
  unfold commandOf at h
  rw [if_neg hq] at h
  repeat' split at h
  all_goals simp at h

/-- With a cached user, the overview menu is the fixed three items, filtered
by the remainder when it is non-empty. -/
theorem overview_reduce (r : Remote) (st : ExtState) (u : User)
    (hu : st.current_user = some u) (qq : String) :
    GitLabExtension.show_overview_menu r st qq =
      Except.ok
        (if qq ≠ "" then
          ([{ icon := "images/icon.png", name := "Gitlab", description := "Open gitlab",
              highlightable := false, on_enter := Action.openUrl st.preferences.url,
              on_alt_enter := none },
            { icon := "images/icon.png", name := "My Groups",
              description := "List the groups you belong", highlightable := false,
              on_enter := Action.setUserQuery (st.preferences.kw ++ " groups "),
              on_alt_enter := some (Action.copyToClipboard
                (st.preferences.url ++ "/dashboard/groups")) },
            { icon := "images/icon.png", name := "My Access Tokens",
              description := "Open \"Access Tokens\" page", highlightable := false,
              on_enter := Action.openUrl
                (st.preferences.url ++ "/-/user_settings/personal_access_tokens"),
              on_alt_enter := none }] : List ResultItem).filter
            (fun p => containsList (lowerList qq.toList) (lowerList p.name.toList))
        else
          [{ icon := "images/icon.png", name := "Gitlab", description := "Open gitlab",
             highlightable := false, on_enter := Action.openUrl st.preferences.url,
             on_alt_enter := none },
           { icon := "images/icon.png", name := "My Groups",
             description := "List the groups you belong", highlightable := false,
             on_enter := Action.setUserQuery (st.preferences.kw ++ " groups "),
             on_alt_enter := some (Action.copyToClipboard
               (st.preferences.url ++ "/dashboard/groups")) },
           { icon := "images/icon.png", name := "My Access Tokens",
             description := "Open \"Access Tokens\" page", highlightable := false,
             on_enter := Action.openUrl
               (st.preferences.url ++ "/-/user_settings/personal_access_tokens"),
             on_alt_enter := none }]) := by
  unfold GitLabExtension.show_overview_menu
  rw [hu]

/-- C2: with a remote on which every API call raises a `GitlabError`, every
routed command that performs a remote lookup (any non-empty query other
than the `mr` command; for the overview command the lookup is the lazy
`auth()`, performed when no user is cached) renders exactly one placeholder
item: the generic error title, the failure detail as description, and a
dismiss-only action.  The `GitlabError` never escapes the router. -/
theorem gitlab_error_yields_single_error_item (st : ExtState) (e : GitlabError)
    (q : String) (hq : q ≠ "") (hmr : (commandOf q).isMr = false)
    (hov : (commandOf q).isOverview = true → st.current_user = none) :
    KeywordQueryEventListener.on_event (failingRemote e) st q =
      Except.ok
        [{ icon := "images/icon.png",
           name := "An error ocurred when connecting to GitLab",
           description := e.message, highlightable := false,
           on_enter := Action.hideWindow, on_alt_enter := none }] := by
  unfold KeywordQueryEventListener.on_event tryRoute
  cases hcmd : commandOf q with
  | showMenu => exact absurd hcmd (commandOf_ne_showMenu q hq)
  | overview rem =>
    have hcu : st.current_user = none := hov (by rw [hcmd]; rfl)
    have hsom : GitLabExtension.show_overview_menu (failingRemote e) st rem =
        Except.error e := by
      unfold GitLabExtension.show_overview_menu
      rw [hcu]
      rfl
    dsimp only []
    rw [hsom]
    rfl
  | projects rem => rfl
  | pipelines rem => rfl
  | mr rem =>
    rw [hcmd] at hmr
    simp [Command.isMr] at hmr
  | groups rem => rfl
  | defaultSearch qq => rfl

/-- C2 witness: the error-placeholder claim applied at a failing remote for
the query `"groups x"`. -/
theorem gitlab_error_yields_single_error_item_witness :
    KeywordQueryEventListener.on_event (failingRemote { message := "boom" }) st0
        "groups x" =
      Except.ok
        [{ icon := "images/icon.png",
           name := "An error ocurred when connecting to GitLab",
           description := "boom", highlightable := false,
           on_enter := Action.hideWindow, on_alt_enter := none }] :=
  gitlab_error_yields_single_error_item st0 { message := "boom" } "groups x"
    (by decide) (by decide) (by decide)

/-- C5: with a cached user, the overview command renders the fixed
three-item menu (instance link, "My Groups" sub-view trigger, "My Access
Tokens" link); a non-empty remainder filters it to the items whose title
contains the remainder case-insensitively; the query `"overview groups"`
yields exactly the "My Groups" item. -/
theorem overview_menu_and_filtering (r : Remote) (st : ExtState) (u : User)
    (hu : st.current_user = some u) :
    GitLabExtension.show_overview_menu r st "" =
      Except.ok
        [{ icon := "images/icon.png", name := "Gitlab", description := "Open gitlab",
           highlightable := false, on_enter := Action.openUrl st.preferences.url,
           on_alt_enter := none },
         { icon := "images/icon.png", name := "My Groups",
           description := "List the groups you belong", highlightable := false,
           on_enter := Action.setUserQuery (st.preferences.kw ++ " groups "),
           on_alt_enter := some (Action.copyToClipboard
             (st.preferences.url ++ "/dashboard/groups")) },
         { icon := "images/icon.png", name := "My Access Tokens",
           description := "Open \"Access Tokens\" page", highlightable := false,
           on_enter := Action.openUrl
             (st.preferences.url ++ "/-/user_settings/personal_access_tokens"),
           on_alt_enter := none }]
    ∧ (∀ rem : String, rem ≠ "" →
        GitLabExtension.show_overview_menu r st rem =
          Except.ok
            (([{ icon := "images/icon.png", name := "Gitlab",
                 description := "Open gitlab", highlightable := false,
                 on_enter := Action.openUrl st.preferences.url, on_alt_enter := none },
               { icon := "images/icon.png", name := "My Groups",
                 description := "List the groups you belong", highlightable := false,
                 on_enter := Action.setUserQuery (st.preferences.kw ++ " groups "),
                 on_alt_enter := some (Action.copyToClipboard
                   (st.preferences.url ++ "/dashboard/groups")) },
               { icon := "images/icon.png", name := "My Access Tokens",
                 description := "Open \"Access Tokens\" page", highlightable := false,
                 on_enter := Action.openUrl
                   (st.preferences.url ++ "/-/user_settings/personal_access_tokens"),
                 on_alt_enter := none }] : List ResultItem).filter
              (fun p => containsList (lowerList rem.toList) (lowerList p.name.toList))))
    ∧ KeywordQueryEventListener.on_event r st "overview groups" =
        Except.ok
          [{ icon := "images/icon.png", name := "My Groups",
             description := "List the groups you belong", highlightable := false,
             on_enter := Action.setUserQuery (st.preferences.kw ++ " groups "),
             on_alt_enter := some (Action.copyToClipboard
               (st.preferences.url ++ "/dashboard/groups")) }] := by
  refine ⟨?_, ?_, ?_⟩
  · rw [overview_reduce r st u hu ""]
    rfl
  · intro rem hrem
    rw [overview_reduce r st u hu rem, if_pos hrem]
  · unfold KeywordQueryEventListener.on_event tryRoute
    rw [(by decide : commandOf "overview groups" = Command.overview " groups")]
    dsimp only []
    rw [overview_reduce r st u hu " groups",
      if_pos (by decide : (" groups" : String) ≠ "")]
    rfl

/-- C5 witness: the overview claim applied at a concrete state with a
cached user, on the query `"overview groups"` (remote calls all fail, which
shows none is made). -/
theorem overview_menu_and_filtering_witness :
    KeywordQueryEventListener.on_event (failingRemote { message := "boom" }) stU
        "overview groups" =
      Except.ok
        [{ icon := "images/icon.png", name := "My Groups",
           description := "List the groups you belong", highlightable := false,
           on_enter := Action.setUserQuery (stU.preferences.kw ++ " groups "),
           on_alt_enter := some (Action.copyToClipboard
             (stU.preferences.url ++ "/dashboard/groups")) }] :=
  (overview_menu_and_filtering (failingRemote { message := "boom" }) stU
      { username := "alice" } rfl).2.2

/-- The common rendering shape: a fetched list is rendered as its image
under an item builder, or as a single placeholder when empty; if every
built item and the placeholder are non-highlightable, so is every rendered
item. -/
theorem bindRender_not_highlightable {α : Type} (x : Except GitlabError (List α))
    (f : α → ResultItem) (ph : ResultItem) (items : List ResultItem)
    (hf : ∀ a, (f a).highlightable = false) (hph : ph.highlightable = false)
    (h : (x >>= fun l =>
        if l.isEmpty then Except.ok [ph] else Except.ok (l.map f)) = Except.ok items) :
    ∀ it ∈ items, it.highlightable = false := by
  cases x with
  | error e =>
    exact absurd
      (show (Except.error e : Except GitlabError (List ResultItem)) = Except.ok items from h)
      (by simp)
  | ok l =>
    replace h : (if l.isEmpty then Except.ok [ph] else Except.ok (l.map f)) =
        Except.ok items := h
    split at h
    · injection h with h
      subst h
      intro it hit
      simp at hit
      rw [hit]
      exact hph
    · injection h with h
      subst h
      intro it hit
      rw [List.mem_map] at hit
      obtain ⟨a, _, rfl⟩ := hit
      exact hf a

/-- Every item rendered by `search_projects` is non-highlightable. -/
theorem search_projects_items_not_highlightable (r : Remote) (q t : String)
    (items : List ResultItem)
    (h : GitLabExtension.search_projects r q t = Except.ok items) :
    ∀ it ∈ items, it.highlightable = false := by
  unfold GitLabExtension.search_projects at h
  dsimp only [] at h
  repeat' split at h
  all_goals exact bindRender_not_highlightable _ _ _ _ (fun a => rfl) rfl h

/-- Every item rendered by `search_projects_for_pipeline` is
non-highlightable. -/
theorem pipeline_search_items_not_highlightable (r : Remote) (q : String)
    (items : List ResultItem)
    (h : GitLabExtension.search_projects_for_pipeline r q = Except.ok items) :
    ∀ it ∈ items, it.highlightable = false := by
  unfold GitLabExtension.search_projects_for_pipeline at h
  exact bindRender_not_highlightable _ _ _ _ (fun a => rfl) rfl h

/-- Every item rendered by `list_groups` is non-highlightable. -/
theorem list_groups_items_not_highlightable (r : Remote) (q : String)
    (items : List ResultItem)
    (h : GitLabExtension.list_groups r q = Except.ok items) :
    ∀ it ∈ items, it.highlightable = false := by
  unfold GitLabExtension.list_groups at h
  exact bindRender_not_highlightable _ _ _ _ (fun a => rfl) rfl h

/-- Every item rendered by the pipeline drill-down is non-highlightable. -/
theorem itemEnter_items_not_highlightable (r : Remote) (data : Project)
    (items : List ResultItem)
    (h : ItemEnterEventListener.on_event r data = Except.ok items) :
    ∀ it ∈ items, it.highlightable = false := by
  unfold ItemEnterEventListener.on_event at h
  exact bindRender_not_highlightable _ _ _ _ (fun a => rfl) rfl h

/-- Every item rendered by the overview menu is non-highlightable. -/
theorem show_overview_items_not_highlightable (r : Remote) (st : ExtState)
    (qq : String) (items : List ResultItem)
    (h : GitLabExtension.show_overview_menu r st qq = Except.ok items) :
    ∀ it ∈ items, it.highlightable = false := by
  unfold GitLabExtension.show_overview_menu at h
  cases hg : (match st.current_user with
              | none => r.auth
              | some u => Except.ok u) with
  | error e =>
    rw [hg] at h
    exact absurd
      (show (Except.error e : Except GitlabError (List ResultItem)) = Except.ok items from h)
      (by simp)
  | ok u =>
    rw [hg] at h
    replace h : Except.ok
        (if qq ≠ "" then
          ([{ icon := "images/icon.png", name := "Gitlab", description := "Open gitlab",
              highlightable := false, on_enter := Action.openUrl st.preferences.url,
              on_alt_enter := none },
            { icon := "images/icon.png", name := "My Groups",
              description := "List the groups you belong", highlightable := false,
              on_enter := Action.setUserQuery (st.preferences.kw ++ " groups "),
              on_alt_enter := some (Action.copyToClipboard
                (st.preferences.url ++ "/dashboard/groups")) },
            { icon := "images/icon.png", name := "My Access Tokens",
              description := "Open \"Access Tokens\" page", highlightable := false,
              on_enter := Action.openUrl
                (st.preferences.url ++ "/-/user_settings/personal_access_tokens"),
              on_alt_enter := none }] : List ResultItem).filter
            (fun p => containsList (lowerList qq.toList) (lowerList p.name.toList))
        else
          [{ icon := "images/icon.png", name := "Gitlab", description := "Open gitlab",
             highlightable := false, on_enter := Action.openUrl st.preferences.url,
             on_alt_enter := none },
           { icon := "images/icon.png", name := "My Groups",
             description := "List the groups you belong", highlightable := false,
             on_enter := Action.setUserQuery (st.preferences.kw ++ " groups "),
             on_alt_enter := some (Action.copyToClipboard
               (st.preferences.url ++ "/dashboard/groups")) },
           { icon := "images/icon.png", name := "My Access Tokens",
             description := "Open \"Access Tokens\" page", highlightable := false,
             on_enter := Action.openUrl
               (st.preferences.url ++ "/-/user_settings/personal_access_tokens"),
             on_alt_enter := none }]) = Except.ok items := h
    injection h with h
    subst h
    intro it hit
    split at hit
    · have hbase := (List.mem_filter.mp hit).1
      simp at hbase
      rcases hbase with h1 | h1 | h1 <;> rw [h1]
    · simp at hit
      rcases hit with h1 | h1 | h1 <;> rw [h1]

/-- Every item produced by the router body is non-highlightable. -/
theorem tryRoute_ok_items (r : Remote) (st : ExtState) (q : String)
    (items : List ResultItem) (h : tryRoute r st q = Except.ok items) :
    ∀ it ∈ items, it.highlightable = false := by
  unfold tryRoute at h
  cases hcmd : commandOf q <;> rw [hcmd] at h <;> dsimp only [] at h
  case showMenu =>
    injection h with h
    subst h
    intro it hit
    simp [GitLabExtension.show_menu] at hit
    rcases hit with h1 | h1 | h1 <;> rw [h1]
  case overview rem =>
    cases hov : GitLabExtension.show_overview_menu r st rem with
    | error e =>
      rw [hov] at h
      exact absurd h (by simp [Except.mapError])
    | ok its =>
      rw [hov] at h
      replace h : (Except.ok its : Except Fault (List ResultItem)) = Except.ok items := h
      injection h with h
      subst h
      exact show_overview_items_not_highlightable r st rem its hov
  case projects rem =>
    cases hsp : GitLabExtension.search_projects r rem PROJECTS_SEARCH_TYPE_MEMBER with
    | error e =>
      rw [hsp] at h
      exact absurd h (by simp [Except.mapError])
    | ok its =>
      rw [hsp] at h
      replace h : (Except.ok its : Except Fault (List ResultItem)) = Except.ok items := h
      injection h with h
      subst h
      exact search_projects_items_not_highlightable r rem PROJECTS_SEARCH_TYPE_MEMBER its hsp
  case pipelines rem =>
    cases hsp : GitLabExtension.search_projects_for_pipeline r rem with
    | error e =>
      rw [hsp] at h
      exact absurd h (by simp [Except.mapError])
    | ok its =>
      rw [hsp] at h
      replace h : (Except.ok its : Except Fault (List ResultItem)) = Except.ok items := h
      injection h with h
      subst h
      exact pipeline_search_items_not_highlightable r rem its hsp
  case mr rem =>
    exact absurd h (by simp)
  case groups rem =>
    cases hsp : GitLabExtension.list_groups r rem with
    | error e =>
      rw [hsp] at h
      exact absurd h (by simp [Except.mapError])
    | ok its =>
      rw [hsp] at h
      replace h : (Except.ok its : Except Fault (List ResultItem)) = Except.ok items := h
      injection h with h
      subst h
      exact list_groups_items_not_highlightable r rem its hsp
  case defaultSearch qq =>
    cases hsp : GitLabExtension.search_projects r qq PROJECTS_SEARCH_TYPE_MEMBER with
    | error e =>
      rw [hsp] at h
      exact absurd h (by simp [Except.mapError])
    | ok its =>
      rw [hsp] at h
      replace h : (Except.ok its : Except Fault (List ResultItem)) = Except.ok items := h
      injection h with h
      subst h
      exact search_projects_items_not_highlightable r qq PROJECTS_SEARCH_TYPE_MEMBER its hsp

/-- C10: every result item the extension ever renders — through the router
(top menu, overview menu, project and group lists, the zero-result
placeholders, and the caught-error placeholder) and through the pipeline
drill-down — has `highlightable = False`. -/
theorem all_rendered_items_not_highlightable (r : Remote) (st : ExtState)
    (q : String) (data : Project) :
    (∀ items, KeywordQueryEventListener.on_event r st q = Except.ok items →
      ∀ it ∈ items, it.highlightable = false)
    ∧ (∀ items, ItemEnterEventListener.on_event r data = Except.ok items →
      ∀ it ∈ items, it.highlightable = false)
    ∧ (∀ t items, GitLabExtension.search_projects r q t = Except.ok items →
      ∀ it ∈ items, it.highlightable = false) := by
  refine ⟨?_, ?_, ?_⟩
  · intro items h
    unfold KeywordQueryEventListener.on_event at h
    cases htr : tryRoute r st q with
    | ok its =>
      rw [htr] at h
      replace h : (Except.ok its : Except Fault (List ResultItem)) = Except.ok items := h
      injection h with h
      subst h
      exact tryRoute_ok_items r st q its htr
    | error f =>
      rw [htr] at h
      cases f with
      | gitlabError e =>
        replace h : (Except.ok [gitlabErrorItem e] : Except Fault (List ResultItem)) =
            Except.ok items := h
        injection h with h
        subst h
        intro it hit
        simp at hit
        rw [hit]
        rfl
      | attributeError m =>
        exact absurd
          (show (Except.error (Fault.attributeError m) : Except Fault (List ResultItem)) =
              Except.ok items from h)
          (by simp)
  · exact fun items h => itemEnter_items_not_highlightable r data items h
  · exact fun t items h => search_projects_items_not_highlightable r q t items h

/-- C10 witness: the non-highlightable claim applied at the empty query on
a concrete state, covering the rendered top-level menu. -/
theorem all_rendered_items_not_highlightable_witness :
    ∀ it ∈ GitLabExtension.show_menu st0, it.highlightable = false :=
  fun it hit =>
    (all_rendered_items_not_highlightable remote1 st0 "" proj1).1
      (GitLabExtension.show_menu st0) rfl it hit

end UGitlab
